import Mathlib

/-!
Verification of the Night Owls scoring and progression engine (src/app.py).

The Python source is shallowly embedded: Python ints become `ℤ`, the float
quantities (gold, running meter totals, the fixed multipliers 1.25, 1.5,
0.03, ...) become `ℚ` — every constant in the source is exactly
representable in binary floating point, and the products of small integers
with these constants are exact, so the rational model agrees with the float
computation on the ranges the app uses.  Python's `round` (banker's
rounding, half to even) and `int` (truncation toward zero) are embedded
explicitly.  The reactive session state of the Shiny app becomes an
explicit `AppState` record and each event handler a state transformer; the
pseudo-random draws (`random.randrange`, `random.randint`) are modelled by
a seed parameter reduced mod the range, which realises exactly the values
the library can return.
-/

namespace NightOwls

/-- Embeds `clamp(v, lo, hi)` (src/app.py line 247): `max(lo, min(hi, v))`. -/
def clamp (v lo hi : ℤ) : ℤ := max lo (min hi v)

/-- Embeds `heat_multiplier(n)` (line 248): `1.5 if n>=20 else (1.25 if n>=10 else 1.0)`. -/
def heat_multiplier (n : ℚ) : ℚ := if n ≥ 20 then 3/2 else if n ≥ 10 then 5/4 else 1

/-- Embeds `low_or_high(n)` (line 269): `"High" if n>=10 else "Low"`. -/
def low_or_high (n : ℚ) : String := if n ≥ 10 then "High" else "Low"

/-- Embeds `LOW_TABLE` (line 32). -/
def LOW_TABLE : String := "assets/complications_low.json"

/-- Embeds `HIGH_TABLE` (line 33). -/
def HIGH_TABLE : String := "assets/complications_high.json"

/-- Embeds the option-table choice of `_safe_opts` / `_load_options`
(lines 910 and 926): `HIGH_TABLE if notoriety.get() >= 10 else LOW_TABLE`. -/
def safe_opts_tpath (n : ℚ) : String := if n ≥ 10 then HIGH_TABLE else LOW_TABLE

/-- Embeds `compute_base_score(BI, EB, OQM_list)` (lines 259-260):
`clamp(BI + EB + clamp(sum(OQM_list), -2, 2), 1, 7)`. -/
def compute_base_score (BI EB : ℤ) (OQM_list : List ℤ) : ℤ :=
  clamp (BI + EB + clamp OQM_list.sum (-2) 2) 1 7

/-- Embeds `notoriety_gain(cat_base, EI, n)` (lines 266-267):
`max(0, math.ceil((cat_base + max(0, EI-1)) * heat_multiplier(n)))`. -/
def notoriety_gain (cat_base EI : ℤ) (n : ℚ) : ℤ :=
  max 0 ⌈((cat_base + max 0 (EI - 1) : ℤ) : ℚ) * heat_multiplier n⌉

/-- The claimed notorietyGain formula, written from the specification's words
for comparison with the source's `notoriety_gain`: the spec adds a
critical-failure addend and a critical-success subtraction, both absent from
the source function's signature. -/
def notorietyGain_spec (cat_base EI : ℤ) (n : ℚ) (critFail critSucc : Bool) : ℤ :=
  let g := max 0 ⌈((cat_base + max 0 (EI - 1) + (if critFail then 1 else 0) : ℤ) : ℚ)
                    * heat_multiplier n⌉
  if critSucc then max 0 (g - 1) else g

/-- Python's `round(q)` builtin: round half to even (banker's rounding). -/
def round_half_even (q : ℚ) : ℤ :=
  if q - ⌊q⌋ < 1/2 then ⌊q⌋
  else if q - ⌊q⌋ > 1/2 then ⌊q⌋ + 1
  else if ⌊q⌋ % 2 = 0 then ⌊q⌋ else ⌊q⌋ + 1

/-- Python's `round(q, 2)`: round half to even at two decimal places. -/
def round2 (q : ℚ) : ℚ := (round_half_even (q * 100) : ℚ) / 100

/-- Python's `int(q)` on a float: truncation toward zero. -/
def pyInt (q : ℚ) : ℤ := if q < 0 then ⌈q⌉ else ⌊q⌋

/-- The multiplier dictionary of `renown_from_score` (line 263); the Python
`dict[arc]` access raises `KeyError` on any other key, hence `Option`. -/
def renown_score_mult (arc : String) : Option ℚ :=
  if arc = "Help the Poor" then some 1
  else if arc = "Sabotage Evil" then some (3/2)
  else if arc = "Expose Corruption" then some 2
  else none

/-- Embeds `renown_from_score(base, arc)` (lines 262-264):
`int(round(base * mult))` with Python's half-to-even `round`. -/
def renown_from_score (base : ℤ) (arc : String) : Option ℤ :=
  (renown_score_mult arc).map (fun m => round_half_even ((base : ℚ) * m))

/-- Embeds `RENOWN_THRESH` / `NOTORIETY_THRESH` (lines 160-161). -/
def NOTORIETY_THRESH : List ℤ := [5, 10, 15, 20, 25, 30]

/-- Embeds `current_tier(total, thresholds)` (lines 175-181): counts
thresholds while `total >= th`, stopping at the first failure. -/
def current_tier (total : ℚ) : List ℤ → ℕ
  | [] => 0
  | th :: rest => if (th : ℚ) ≤ total then current_tier total rest + 1 else 0

/-- Embeds `RENOWN_ARC_MULT.get(arc, 1.0)` (lines 164-168). -/
def renown_arc_mult (arc : String) : ℚ :=
  if arc = "Help the Poor" then 1
  else if arc = "Sabotage Evil" then 23/20
  else if arc = "Expose Corruption" then 13/10
  else 1

/-- Embeds `RISK_ARC_MULT.get(arc, 1.0)` (lines 169-173). -/
def risk_arc_mult (arc : String) : ℚ :=
  if arc = "Help the Poor" then 4/5
  else if arc = "Sabotage Evil" then 11/10
  else if arc = "Expose Corruption" then 13/10
  else 1

/-- Python's `x or 3` on an `int | None`: `None` and `0` are falsy. -/
def or3 : Option ℤ → ℤ
  | none => 3
  | some v => if v = 0 then 3 else v

/-- Embeds `renown_points_from` (lines 183-211).  `log1p` abstracts the
transcendental `math.log1p`; every stated property holds for an arbitrary
value of it, so no approximation of the logarithm is baked in. -/
def renown_points_from (log1p : ℚ → ℚ) (gold : ℚ) (missions : ℤ) (arc : String)
    (impact exposure : Option ℤ) (oqm eb : ℤ) (nat20 nat1 : Bool) : ℚ :=
  let base := 2 * log1p (max 0 gold / (50 + 10 * ((max 0 missions : ℤ) : ℚ)))
  let oqm_mult := 1 + 3/100 * (oqm : ℚ)
  let eb_mult := 1 + 4/100 * (eb : ℚ)
  let eff_mult : ℚ :=
    if arc = "Sabotage Evil" then 1 + 7/100 * ((or3 impact - 3 : ℤ) : ℚ)
    else if arc = "Expose Corruption" then 1 + 10/100 * ((or3 exposure - 3 : ℤ) : ℚ)
    else 1
  let pts := renown_arc_mult arc * oqm_mult * eb_mult * eff_mult * base
  let pts2 := pts + (if nat20 then 1/2 else 0) - (if nat1 then 3/10 else 0)
  round2 (max 0 pts2)

/-- Embeds `notoriety_points_from` (lines 213-243), with `log1p` abstracted
as in `renown_points_from`. -/
def notoriety_points_from (log1p : ℚ → ℚ) (gold : ℚ) (missions : ℤ) (arc : String)
    (impact exposure : Option ℤ) (oqm eb : ℤ) (current_notor_total : ℚ)
    (nat20 nat1 : Bool) : ℚ :=
  let base := 8/5 * log1p (max 0 gold / (80 + 12 * ((max 0 missions : ℤ) : ℚ)))
  let tier := current_tier current_notor_total NOTORIETY_THRESH
  let heat_scale := 1 + 8/100 * (tier : ℚ)
  let oqm_mult := max (85/100) (1 - 3/100 * (oqm : ℚ))
  let eb_mult := max (80/100) (1 - 3/100 * (eb : ℚ))
  let eff_mult : ℚ :=
    if arc = "Sabotage Evil" then 1 + 9/100 * ((or3 impact - 3 : ℤ) : ℚ)
    else if arc = "Expose Corruption" then 1 + 12/100 * ((or3 exposure - 3 : ℤ) : ℚ)
    else 1
  let pts := risk_arc_mult arc * heat_scale * oqm_mult * eb_mult * eff_mult * base
  let pts2 := pts - (if nat20 then 3/10 else 0) + (if nat1 then 1/2 else 0)
  round2 (max 0 pts2)

/-- One ledger row, matching `COLUMNS` (lines 20-23).  The handlers under
verification (`_lie_low`, `_proxy_charity`, `_spin`) fill the `BI`/`EB`/`OQM`
columns with the placeholder string `"-"` and the two gain columns with
numbers, so those two are typed `ℚ` and the rest `String`. -/
structure Row where
  timestamp : String
  ward : String
  archetype : String
  bi : String
  eb : String
  oqm : String
  renown_gain : ℚ
  notoriety_gain : ℚ
  ei_breakdown : String
  notes : String
  complication : String
deriving DecidableEq

/-- The reactive session state (lines 316-329): the `reactive.Value`s the
event handlers read and write. -/
structure AppState where
  renown : ℚ
  notoriety : ℚ
  ward_focus : String
  ledger : List Row
  wheel_options : List String
  selected_index : Option ℕ
  last_angle : ℚ
  spin_token : Option String
deriving DecidableEq

/-- Models `random.randrange(n)`: for `n > 0` it returns some value in
`[0, n)`; the seed abstracts the PRNG state, and `seed % n` ranges over
exactly the values the library can return. -/
def randrange (seed n : ℕ) : ℕ := seed % n

/-- Models `random.randint(4, 7)` (line 966) the same way. -/
def randint47 (seed : ℕ) : ℕ := 4 + seed % 4

/-- Embeds the `_lie_low` handler (lines 787-800): drop 2 heat at
notoriety ≥ 10 else 1, clamp the live counter at 0, and append an
`Adjustment: Lie Low` row with `notoriety_gain = -drop`.  `ts` stands for
`dt.datetime.now().isoformat(timespec="seconds")`. -/
def lie_low (s : AppState) (ts : String) : AppState :=
  let drop : ℤ := if s.notoriety ≥ 10 then 2 else 1
  let row : Row :=
    ⟨ts, s.ward_focus, "Adjustment: Lie Low", "-", "-", "-", 0, (-drop : ℤ), "-", "auto", ""⟩
  { s with notoriety := max 0 (s.notoriety - (drop : ℚ)), ledger := s.ledger ++ [row] }

/-- Embeds the `_proxy_charity` handler (lines 802-813): always drop 1. -/
def proxy_charity (s : AppState) (ts : String) : AppState :=
  let row : Row :=
    ⟨ts, s.ward_focus, "Adjustment: Proxy Charity", "-", "-", "-", 0, -1, "-", "auto", ""⟩
  { s with notoriety := max 0 (s.notoriety - 1), ledger := s.ledger ++ [row] }

/-- Embeds the `_spin` handler (lines 954-974).  `if not opts: return` makes
the empty-options case a no-op; otherwise it draws `idx = randrange(n)`,
stores it in `selected_index`, refreshes the animation angle and token, and
appends one `Complication` row with zero gains carrying `opts[idx]`.
`seed` feeds `random.randrange`, `aseed` feeds `random.randint(4,7)`, and
`ts` stands for the two `datetime.now()` calls. -/
def spin (s : AppState) (seed aseed : ℕ) (ts : String) : AppState :=
  if s.wheel_options = [] then s
  else
    let n := s.wheel_options.length
    let idx := randrange seed n
    let seg : ℚ := 360 / (n : ℚ)
    let row : Row :=
      ⟨ts, s.ward_focus, "Complication", "-", "-", "-", 0, 0, "-", "-",
        s.wheel_options.getD idx ""⟩
    { s with selected_index := some idx,
             last_angle := (randint47 aseed : ℚ) * 360 + ((idx : ℚ) + 1/2) * seg,
             spin_token := some ts,
             ledger := s.ledger ++ [row] }

/-- Embeds the success branch of the `_reload` handler (lines 991-1002):
replace the ledger by the remote rows and recompute both counters as
`int(sum(column))` — a plain truncated sum, with no per-step clamping. -/
def reload (s : AppState) (remote : List Row) : AppState :=
  { s with ledger := remote,
           renown := (pyInt (remote.map Row.renown_gain).sum : ℚ),
           notoriety := (pyInt (remote.map Row.notoriety_gain).sum : ℚ) }

/-- A concrete session state: fresh meters, empty ledger, a two-option
wheel. -/
def sampleState : AppState :=
  ⟨0, 0, "Dock", [], ["Alpha", "Beta"], none, 0, none⟩

/-- The row `_spin` appends from `sampleState` with draw seed 1 (index 1,
option "Beta") at timestamp "T0". -/
def sampleSpinRow : Row :=
  ⟨"T0", "Dock", "Complication", "-", "-", "-", 0, 0, "-", "-", "Beta"⟩

theorem clamp_bounds (v lo hi : ℤ) (h : lo ≤ hi) : lo ≤ clamp v lo hi ∧ clamp v lo hi ≤ hi :=
  ⟨le_max_left _ _, max_le h (min_le_left _ _)⟩

theorem clamp_mono (lo hi : ℤ) {a b : ℤ} (h : a ≤ b) : clamp a lo hi ≤ clamp b lo hi :=
  max_le_max le_rfl (min_le_min le_rfl h)

/-- C3: `compute_base_score` equals the doubly clamped sum by definition, its
value always lies in `[1, 7]`, and it is monotone in `BI`, in `EB`, and in
the operational-modifier list (any pointwise increase raises the sum). -/
theorem base_score_bounds_and_monotone :
    ∀ (BI EB : ℤ) (L : List ℤ),
      compute_base_score BI EB L = clamp (BI + EB + clamp L.sum (-2) 2) 1 7 ∧
      (1 ≤ compute_base_score BI EB L ∧ compute_base_score BI EB L ≤ 7) ∧
      (∀ BI' : ℤ, BI ≤ BI' → compute_base_score BI EB L ≤ compute_base_score BI' EB L) ∧
      (∀ EB' : ℤ, EB ≤ EB' → compute_base_score BI EB L ≤ compute_base_score BI EB' L) ∧
      (∀ L' : List ℤ, L.sum ≤ L'.sum →
        compute_base_score BI EB L ≤ compute_base_score BI EB L') := by
  intro BI EB L
  refine ⟨rfl, clamp_bounds _ _ _ (by norm_num), ?_, ?_, ?_⟩
  · intro BI' h
    exact clamp_mono _ _ (by omega)
  · intro EB' h
    exact clamp_mono _ _ (by omega)
  · intro L' h
    exact clamp_mono _ _ (by have := clamp_mono (-2) 2 h; omega)

theorem base_score_bounds_and_monotone_witness :
    (1 ≤ compute_base_score 3 0 [1, -1] ∧ compute_base_score 3 0 [1, -1] ≤ 7) ∧
    compute_base_score 3 0 [1, -1] ≤ compute_base_score 4 0 [1, -1] ∧
    compute_base_score 3 0 [1, -1] ≤ compute_base_score 3 1 [1, -1] ∧
    compute_base_score 3 0 [1, -1] ≤ compute_base_score 3 0 [2, -1] :=
  ⟨(base_score_bounds_and_monotone 3 0 [1, -1]).2.1,
   (base_score_bounds_and_monotone 3 0 [1, -1]).2.2.1 4 (by decide),
   (base_score_bounds_and_monotone 3 0 [1, -1]).2.2.2.1 1 (by decide),
   (base_score_bounds_and_monotone 3 0 [1, -1]).2.2.2.2 [2, -1] (by decide)⟩

theorem current_tier_mono {t t' : ℚ} (h : t ≤ t') :
    ∀ L : List ℤ, current_tier t L ≤ current_tier t' L := by
  intro L
  induction L with
  | nil => exact le_rfl
  | cons th rest ih =>
    simp only [current_tier]
    split_ifs with h1 h2
    · exact Nat.succ_le_succ ih
    · exact absurd (h1.trans h) h2
    · exact Nat.zero_le _
    · exact Nat.zero_le _

theorem current_tier_eq_countP (t : ℚ) :
    ∀ L : List ℤ, List.Pairwise (· ≤ ·) L →
      current_tier t L = L.countP (fun th : ℤ => decide ((th : ℚ) ≤ t)) := by
  intro L
  induction L with
  | nil => intro _; rfl
  | cons th rest ih =>
    intro hp
    rcases List.pairwise_cons.mp hp with ⟨hhead, htail⟩
    simp only [current_tier]
    split_ifs with h1
    · rw [List.countP_cons_of_pos _ _ (by simpa using h1), ih htail]
    · rw [List.countP_cons_of_neg _ _ (by simpa using h1)]
      symm
      rw [List.countP_eq_zero]
      intro b hb
      have : (th : ℚ) ≤ (b : ℚ) := by exact_mod_cast hhead b hb
      simp only [decide_eq_true_eq]
      intro hbt
      exact h1 (this.trans hbt)

/-- C7: on the ladder `[5,10,15,20,25,30]` the tier function takes the
values 0, 1, 5, 6 at totals 4, 5, 29, 30; it is monotone non-decreasing in
the total; and on any ascending ladder it returns the count of thresholds
at or below the total. -/
theorem tier_count_values_monotone :
    (current_tier 4 NOTORIETY_THRESH = 0 ∧ current_tier 5 NOTORIETY_THRESH = 1 ∧
     current_tier 29 NOTORIETY_THRESH = 5 ∧ current_tier 30 NOTORIETY_THRESH = 6) ∧
    (∀ t t' : ℚ, t ≤ t' → ∀ L : List ℤ, current_tier t L ≤ current_tier t' L) ∧
    (∀ t : ℚ, ∀ L : List ℤ, List.Pairwise (· ≤ ·) L →
      current_tier t L = L.countP (fun th : ℤ => decide ((th : ℚ) ≤ t))) :=
  ⟨⟨by decide, by decide, by decide, by decide⟩,
   fun _ _ h => current_tier_mono h, current_tier_eq_countP⟩

theorem tier_count_values_monotone_witness :
    current_tier 4 NOTORIETY_THRESH = 0 ∧
    ((3 : ℚ) ≤ 7 ∧ current_tier 3 NOTORIETY_THRESH ≤ current_tier 7 NOTORIETY_THRESH) ∧
    (List.Pairwise (· ≤ ·) NOTORIETY_THRESH ∧
      current_tier 12 NOTORIETY_THRESH =
        NOTORIETY_THRESH.countP (fun th : ℤ => decide ((th : ℚ) ≤ 12))) :=
  ⟨tier_count_values_monotone.1.1,
   ⟨by decide, tier_count_values_monotone.2.1 3 7 (by decide) NOTORIETY_THRESH⟩,
   ⟨by decide, tier_count_values_monotone.2.2 12 NOTORIETY_THRESH (by decide)⟩⟩

/-- C5: the heat multiplier is 1 below 10, 5/4 on [10, 20), 3/2 from 20 up,
and the wheel's table choice, the Low/High caption and "multiplier above 1"
all flip at the same threshold 10. -/
theorem heat_bands_and_table_agreement :
    ∀ t : ℚ,
      (t < 10 → heat_multiplier t = 1) ∧
      (10 ≤ t → t < 20 → heat_multiplier t = 5/4) ∧
      (20 ≤ t → heat_multiplier t = 3/2) ∧
      (safe_opts_tpath t = HIGH_TABLE ↔ 1 < heat_multiplier t) ∧
      (low_or_high t = "High" ↔ 1 < heat_multiplier t) := by
  intro t
  rcases lt_or_le t 10 with h10 | h10
  · have hm : heat_multiplier t = 1 := by
      simp only [heat_multiplier]
      rw [if_neg (by simp only [ge_iff_le, not_le]; linarith),
          if_neg (by simp only [ge_iff_le, not_le]; linarith)]
    have hpath : safe_opts_tpath t = LOW_TABLE := by
      simp only [safe_opts_tpath]
      rw [if_neg (by simp only [ge_iff_le, not_le]; linarith)]
    have hlh : low_or_high t = "Low" := by
      simp only [low_or_high]
      rw [if_neg (by simp only [ge_iff_le, not_le]; linarith)]
    rw [hm, hpath, hlh]
    exact ⟨fun _ => rfl, fun hge _ => absurd hge (by linarith),
      fun hge => absurd hge (by linarith), by decide, by decide⟩
  · rcases lt_or_le t 20 with h20 | h20
    · have hm : heat_multiplier t = 5/4 := by
        simp only [heat_multiplier]
        rw [if_neg (by simp only [ge_iff_le, not_le]; linarith), if_pos h10]
      have hpath : safe_opts_tpath t = HIGH_TABLE := by
        simp only [safe_opts_tpath]; rw [if_pos h10]
      have hlh : low_or_high t = "High" := by
        simp only [low_or_high]; rw [if_pos h10]
      rw [hm, hpath, hlh]
      exact ⟨fun hlt => absurd hlt (by linarith), fun _ _ => rfl,
        fun hge => absurd hge (by linarith), by norm_num, by norm_num⟩
    · have hm : heat_multiplier t = 3/2 := by
        simp only [heat_multiplier]; rw [if_pos h20]
      have hpath : safe_opts_tpath t = HIGH_TABLE := by
        simp only [safe_opts_tpath]; rw [if_pos (by linarith : t ≥ 10)]
      have hlh : low_or_high t = "High" := by
        simp only [low_or_high]; rw [if_pos (by linarith : t ≥ 10)]
      rw [hm, hpath, hlh]
      exact ⟨fun hlt => absurd hlt (by linarith), fun _ hlt => absurd hlt (by linarith),
        fun _ => rfl, by norm_num, by norm_num⟩

theorem heat_bands_and_table_agreement_witness :
    ((5 : ℚ) < 10 ∧ heat_multiplier 5 = 1) ∧
    ((10 : ℚ) ≤ 15 ∧ (15 : ℚ) < 20 ∧ heat_multiplier 15 = 5/4) ∧
    ((20 : ℚ) ≤ 25 ∧ heat_multiplier 25 = 3/2) ∧
    (safe_opts_tpath 15 = HIGH_TABLE ↔ 1 < heat_multiplier 15) :=
  ⟨⟨by norm_num, (heat_bands_and_table_agreement 5).1 (by norm_num)⟩,
   ⟨by norm_num, by norm_num, (heat_bands_and_table_agreement 15).2.1 (by norm_num) (by norm_num)⟩,
   ⟨by norm_num, (heat_bands_and_table_agreement 25).2.2.1 (by norm_num)⟩,
   (heat_bands_and_table_agreement 15).2.2.2.1⟩

/-- C4 counterexample: at `cat_base = 1`, `EI = 0`, `n = 0` with the
critical-failure flag raised, the source's `notoriety_gain` (which takes no
crit flags) returns 1 while the claimed formula returns 2. -/
theorem notoriety_gain_ignores_crit_flags :
    notoriety_gain 1 0 0 = 1 ∧ notorietyGain_spec 1 0 0 true false = 2 ∧
    notoriety_gain 1 0 0 ≠ notorietyGain_spec 1 0 0 true false := by
  have h1 : notoriety_gain 1 0 0 = 1 := by norm_num [notoriety_gain, heat_multiplier]
  have h2 : notorietyGain_spec 1 0 0 true false = 2 := by
    norm_num [notorietyGain_spec, heat_multiplier]
  exact ⟨h1, h2, by rw [h1, h2]; decide⟩

/-- C4 amended: the source's `notoriety_gain` computes
`max(0, ceil((cat_base + max(0, EI-1)) * heat_multiplier(n)))` — exactly the
claimed formula with both critical flags off; it has no critical-failure
addend and no critical-success subtraction. -/
theorem notoriety_gain_eq_spec_without_crits :
    ∀ (cat_base EI : ℤ) (n : ℚ),
      notoriety_gain cat_base EI n = notorietyGain_spec cat_base EI n false false := by
  intro cat_base EI n
  simp [notoriety_gain, notorietyGain_spec]

/-- C6 counterexample: with archetype `Sabotage Evil`, impact 3, no
modifiers and result bucket 0, the base score is 3 but the logged renown
gain is `int(round(3 * 1.5)) = 4`, not 5 — Python's `round` is half to
even, so 4.5 rounds down to 4 (and an integer result can never be 4.5). -/
theorem renown_from_score_sabotage_three :
    renown_from_score 3 "Sabotage Evil" = some 4 := by
  have hm : renown_score_mult "Sabotage Evil" = some (3/2) := by rfl
  unfold renown_from_score
  rw [hm, Option.map_some']
  have h92 : ((3 : ℤ) : ℚ) * (3/2) = 9/2 := by norm_num
  rw [h92]
  have h4 : ⌊(9/2 : ℚ)⌋ = 4 := by norm_num
  norm_num [round_half_even, h4]

theorem sabotage_scenario_rounds_to_four_not_five :
    compute_base_score 3 0 [] = 3 ∧
    renown_from_score (compute_base_score 3 0 []) "Sabotage Evil" ≠ some 5 := by
  have hb : compute_base_score 3 0 [] = 3 := by decide
  rw [hb, renown_from_score_sabotage_three]
  exact ⟨rfl, by decide⟩

/-- C6 amended: the scenario's base score is `clamp(3+0+0,1,7) = 3`, and
with the archetype multiplier 1.5 the renown gain is 4: the formulation
does round, but half to even, so 4.5 becomes 4 rather than 5. -/
theorem sabotage_scenario_base_three_renown_four :
    compute_base_score 3 0 [] = 3 ∧
    renown_from_score (compute_base_score 3 0 []) "Sabotage Evil" = some 4 := by
  have hb : compute_base_score 3 0 [] = 3 := by decide
  rw [hb, renown_from_score_sabotage_three]
  exact ⟨rfl, rfl⟩

theorem round_half_even_nonneg {q : ℚ} (h : 0 ≤ q) : 0 ≤ round_half_even q := by
  have hf : (0 : ℤ) ≤ ⌊q⌋ := Int.floor_nonneg.mpr h
  unfold round_half_even
  split_ifs <;> omega

theorem round2_nonneg {q : ℚ} (h : 0 ≤ q) : 0 ≤ round2 q := by
  unfold round2
  have : (0 : ℤ) ≤ round_half_even (q * 100) :=
    round_half_even_nonneg (by positivity)
  positivity

/-- C9: for every value of the logarithm primitive and every combination of
gold, mission count, archetype, impact/exposure, ops modifier, result
bucket, crit flags and current notoriety, both projected-points functions
return a non-negative value: each floors at 0 before the two-decimal
rounding, and that rounding preserves the sign. -/
theorem projected_points_nonneg :
    ∀ (log1p : ℚ → ℚ) (gold : ℚ) (missions : ℤ) (arc : String)
      (impact exposure : Option ℤ) (oqm eb : ℤ) (notor : ℚ) (nat20 nat1 : Bool),
      0 ≤ renown_points_from log1p gold missions arc impact exposure oqm eb nat20 nat1 ∧
      0 ≤ notoriety_points_from log1p gold missions arc impact exposure oqm eb notor
            nat20 nat1 := by
  intro log1p gold missions arc impact exposure oqm eb notor nat20 nat1
  constructor
  · simp only [renown_points_from]
    exact round2_nonneg (le_max_left _ _)
  · simp only [notoriety_points_from]
    exact round2_nonneg (le_max_left _ _)

/-- C10: an empty option list makes the spin handler a no-op (no selection,
no append, no state change at all), and on a non-empty list the drawn index
is always strictly below the list length, so the text lookup stored in the
ledger row is in bounds; exactly one row is appended. -/
theorem spin_empty_noop_and_index_in_bounds :
    ∀ (s : AppState) (seed aseed : ℕ) (ts : String),
      (s.wheel_options = [] → spin s seed aseed ts = s) ∧
      (s.wheel_options ≠ [] →
        randrange seed s.wheel_options.length < s.wheel_options.length ∧
        (spin s seed aseed ts).ledger.length = s.ledger.length + 1) := by
  intro s seed aseed ts
  constructor
  · intro h
    simp [spin, h]
  · intro h
    have hn : 0 < s.wheel_options.length := List.length_pos.mpr h
    exact ⟨Nat.mod_lt _ hn, by simp [spin, h]⟩

theorem spin_empty_noop_and_index_in_bounds_witness :
    ({ sampleState with wheel_options := [] }.wheel_options = [] ∧
      spin { sampleState with wheel_options := [] } 1 0 "T0" =
        { sampleState with wheel_options := [] }) ∧
    (sampleState.wheel_options ≠ [] ∧
      randrange 1 sampleState.wheel_options.length < sampleState.wheel_options.length ∧
      (spin sampleState 1 0 "T0").ledger.length = sampleState.ledger.length + 1) :=
  ⟨⟨rfl, (spin_empty_noop_and_index_in_bounds
      { sampleState with wheel_options := [] } 1 0 "T0").1 rfl⟩,
   ⟨by decide, (spin_empty_noop_and_index_in_bounds sampleState 1 0 "T0").2 (by decide)⟩⟩

/-- C1 counterexample: the spin handler keeps no nonce.  Re-sending the
identical completion (same seed, same timestamp) on the same state appends
a second ledger record: after one call the ledger has 1 record, after the
identical retry it has 2, so the retry is not a no-op. -/
theorem spin_replay_appends_second_record :
    (spin sampleState 1 0 "T0").ledger.length = 1 ∧
    (spin (spin sampleState 1 0 "T0") 1 0 "T0").ledger.length = 2 ∧
    (2 : ℕ) ≠ 1 := by
  refine ⟨?_, ?_, by decide⟩ <;> rfl

/-- C1 amended: every invocation of the spin handler on a non-empty option
table appends exactly one ledger record — including an identical
re-presentation, which appends a second one; the code has no nonce and no
dedup, so the ledger grows by one per delivery, not per physical spin. -/
theorem spin_appends_one_record_per_trigger :
    ∀ (s : AppState) (seed aseed : ℕ) (ts : String), s.wheel_options ≠ [] →
      (spin s seed aseed ts).ledger.length = s.ledger.length + 1 ∧
      (spin (spin s seed aseed ts) seed aseed ts).ledger.length = s.ledger.length + 2 := by
  intro s seed aseed ts h
  constructor
  · simp [spin, h]
  · simp [spin, h]

theorem spin_appends_one_record_per_trigger_witness :
    sampleState.wheel_options ≠ [] ∧
    (spin sampleState 1 0 "T0").ledger.length = sampleState.ledger.length + 1 ∧
    (spin (spin sampleState 1 0 "T0") 1 0 "T0").ledger.length =
      sampleState.ledger.length + 2 :=
  ⟨by decide, spin_appends_one_record_per_trigger sampleState 1 0 "T0" (by decide)⟩

/-- C8 counterexample: from `sampleState` with draw seed 1 the drawn index
is 1 and the single appended record is exactly `sampleSpinRow`: its deltas
are zero and its `complication` column holds the drawn text "Beta", but no
column of the record holds the drawn index — neither the string "1" among
its nine string columns nor the number 1 in either numeric column; the
index lives only in the session's `selected_index`. -/
theorem spin_record_lacks_index :
    (spin sampleState 1 0 "T0").ledger = [sampleSpinRow] ∧
    randrange 1 sampleState.wheel_options.length = 1 ∧
    (spin sampleState 1 0 "T0").selected_index = some 1 ∧
    (∀ c ∈ [sampleSpinRow.timestamp, sampleSpinRow.ward, sampleSpinRow.archetype,
            sampleSpinRow.bi, sampleSpinRow.eb, sampleSpinRow.oqm,
            sampleSpinRow.ei_breakdown, sampleSpinRow.notes,
            sampleSpinRow.complication], c ≠ "1") ∧
    sampleSpinRow.renown_gain ≠ 1 ∧ sampleSpinRow.notoriety_gain ≠ 1 := by
  refine ⟨rfl, rfl, rfl, by decide, by decide, by decide⟩

/-- C8 amended: each accepted spin appends exactly one `Complication` record
with zero Renown/Notoriety deltas carrying the drawn option's text (the
drawn index is stored only in the session's `selected_index`, not in the
record), and the commit leaves the Renown and Notoriety totals and every
previously present ledger record unchanged. -/
theorem spin_record_zero_deltas_text_frame :
    ∀ (s : AppState) (seed aseed : ℕ) (ts : String), s.wheel_options ≠ [] →
      ∃ r : Row,
        (spin s seed aseed ts).ledger = s.ledger ++ [r] ∧
        r.renown_gain = 0 ∧ r.notoriety_gain = 0 ∧
        r.archetype = "Complication" ∧
        r.complication = s.wheel_options.getD (randrange seed s.wheel_options.length) "" ∧
        (spin s seed aseed ts).selected_index =
          some (randrange seed s.wheel_options.length) ∧
        (spin s seed aseed ts).renown = s.renown ∧
        (spin s seed aseed ts).notoriety = s.notoriety := by
  intro s seed aseed ts h
  unfold spin
  rw [if_neg h]
  exact ⟨_, rfl, rfl, rfl, rfl, rfl, rfl, rfl, rfl⟩

theorem spin_record_zero_deltas_text_frame_witness :
    sampleState.wheel_options ≠ [] ∧
    ∃ r : Row,
      (spin sampleState 1 0 "T0").ledger = sampleState.ledger ++ [r] ∧
      r.renown_gain = 0 ∧ r.notoriety_gain = 0 ∧
      r.archetype = "Complication" ∧
      r.complication =
        sampleState.wheel_options.getD (randrange 1 sampleState.wheel_options.length) "" ∧
      (spin sampleState 1 0 "T0").selected_index =
        some (randrange 1 sampleState.wheel_options.length) ∧
      (spin sampleState 1 0 "T0").renown = sampleState.renown ∧
      (spin sampleState 1 0 "T0").notoriety = sampleState.notoriety :=
  ⟨by decide, spin_record_zero_deltas_text_frame sampleState 1 0 "T0" (by decide)⟩

/-- C2 counterexample: a `Lie Low` at Notoriety 0 appends a record with
delta −1 while the live counter clamps at 0; reloading from that very
ledger then recomputes Notoriety as the plain sum −1, a negative total —
the recompute neither clamps per step nor floors the result at 0. -/
theorem reload_total_negative_after_lie_low :
    (lie_low sampleState "T1").notoriety = 0 ∧
    (lie_low sampleState "T1").ledger.map Row.notoriety_gain = [-1] ∧
    (reload (lie_low sampleState "T1") (lie_low sampleState "T1").ledger).notoriety
      = -1 ∧
    ¬ (0 : ℚ) ≤
      (reload (lie_low sampleState "T1") (lie_low sampleState "T1").ledger).notoriety := by
  have hmap : (lie_low sampleState "T1").ledger.map Row.notoriety_gain = [-1] := by
    simp [lie_low, sampleState]
  have hre : (reload (lie_low sampleState "T1") (lie_low sampleState "T1").ledger).notoriety
      = (pyInt ((lie_low sampleState "T1").ledger.map Row.notoriety_gain).sum : ℚ) := rfl
  have hceil : (⌈(-1 : ℚ)⌉ : ℤ) = -1 := by
    rw [show (-1 : ℚ) = ((-1 : ℤ) : ℚ) by norm_num, Int.ceil_intCast]
  have hp3 : (reload (lie_low sampleState "T1") (lie_low sampleState "T1").ledger).notoriety
      = -1 := by
    rw [hre, hmap]
    simp only [List.sum_cons, List.sum_nil, add_zero, pyInt]
    rw [if_pos (by norm_num), hceil]
    norm_num
  refine ⟨?_, hmap, hp3, ?_⟩
  · simp only [lie_low, sampleState]
    norm_num
  · rw [hp3]
    norm_num

/-- C2 amended: the live adjustment handlers do clamp their own step — after
`Lie Low` or `Proxy Charity` the Notoriety counter is never negative — but
the ledger recompute in `_reload` is the plain truncated sum of the
`notoriety_gain` column with no per-step clamping and no floor, so a ledger
whose deltas sum negative yields a negative recomputed total (not 0). -/
theorem adjustments_clamp_reload_sums :
    (∀ (s : AppState) (ts : String),
      0 ≤ (lie_low s ts).notoriety ∧ 0 ≤ (proxy_charity s ts).notoriety) ∧
    (∀ (s : AppState) (remote : List Row),
      (reload s remote).notoriety = (pyInt (remote.map Row.notoriety_gain).sum : ℚ)) :=
  ⟨fun _ _ => ⟨le_max_left _ _, le_max_left _ _⟩, fun _ _ => rfl⟩

end NightOwls
